import Mathlib

/-!
Shallow embedding of the authentication core of EOS_APP:
  src/application/api/jwt/jwt_service.py   (JWTService: generate_tokens,
      _remove_old_sessions_if_needed, create_session)
  src/application/api/jwt/jwt_check.py     (check_jwt endpoint)
  src/application/api/auth/auth_local_service.py (AuthService)
  src/application/api/auth/local_auth.py   (local_auth endpoint)
  src/application/api/auth/logout.py       (logout endpoint)

The relational store is modelled as explicit state (`Store`): the
`sessions` table as a list in insertion order (the DB sequence that backs
`session_id` is the `nextId` counter, and `created_at DEFAULT NOW()` is the
`now` argument threaded through each operation), and the `revoked_tokens`
table as a list of rows.  JWTs are modelled symbolically: a signed token is
its claim payload together with the identifier of the signing key pair;
decoding verifies the key identifier.  The wire serialization of a token
and the SHA-256 hash are opaque parameters (`ser`, `sha`) of every
operation, since the code only ever moves their results around and
compares them for equality.
-/

/-- Token type claim: `'type': 'access'` or `'type': 'refresh'`
(jwt_service.py lines 154-168). -/
inductive TType
  | access
  | refresh
deriving DecidableEq

/-- JWT claim set produced by `JWTService.generate_tokens`:
`{'user_id': ..., 'exp': ..., 'iat': ..., 'type': ...}`
(jwt_service.py lines 154-168; the redundant `alg` claim is dropped as it
never influences behaviour). -/
structure Payload where
  userId : String
  exp : Int
  iat : Int
  ttype : TType
deriving DecidableEq

/-- A signed token: payload plus the identifier of the RSA key pair that
signed it.  `jwt.encode(payload, key)` is modelled as pairing the payload
with the key; `jwt.decode(token, pubkey)` checks the key identifier. -/
structure Tok where
  payload : Payload
  keyId : Nat
deriving DecidableEq

/-- What arrives in the `access-token` header: either a well-formed signed
token or an arbitrary string that fails decoding (`jwt.InvalidTokenError`). -/
inductive Presented
  | garbage (raw : String)
  | tok (t : Tok)
deriving DecidableEq

/-- The raw header string of a presented credential, relative to a wire
serialization `ser` of signed tokens. -/
def rawOf (ser : Tok → String) : Presented → String
  | .garbage r => r
  | .tok t => ser t

/-- `jwt.decode(access_token, public_key, options={'verify_exp': False})`
as used in jwt_check.py lines 51-56: signature is verified (key identifiers
must match), expiry is not. -/
inductive DecodeResult
  | ok (p : Payload)
  | invalid
deriving DecidableEq

def jwt_decode_noexp (key : Nat) : Presented → DecodeResult
  | .garbage _ => .invalid
  | .tok t => if t.keyId = key then .ok t.payload else .invalid

/-- One row of the `sessions` table, with the columns written by
`JWTService.create_session` (jwt_service.py lines 344-360) plus the
DB-generated `session_id` and `created_at`. -/
structure Session where
  sessionId : Nat
  userId : String
  accessToken : String
  refreshTokenHash : String
  userAgent : String
  ipAddress : String
  createdAt : Int
  expiresAt : Int
deriving DecidableEq

/-- One row of the `revoked_tokens` table as read by jwt_check.py lines
82-88: only `token_hash` and `user_id` are ever consulted. -/
structure RevokedRow where
  tokenHash : String
  userId : String
deriving DecidableEq

/-- One row of the `users` table as read by
`AuthService.get_user_by_credentials` (auth_local_service.py line 35). -/
structure UserRow where
  userId : String
  userlogin : String
  passwordHash : String
deriving DecidableEq

/-- The relational store: sessions in insertion order, revoked-token rows,
and the sequence behind `session_id`. -/
structure Store where
  sessions : List Session
  revoked : List RevokedRow
  nextId : Nat
deriving DecidableEq

def emptyStore : Store := ⟨[], [], 0⟩

/-- Service configuration: `app.count_session`, `app.access_expires`,
`app.refresh_expires` (jwt_service.py lines 24-27). -/
structure Config where
  maxSessions : Nat
  accessExpires : Int
  refreshExpires : Int

/-- Number of rows of user `u` in a session list:
`SELECT COUNT(*) FROM sessions WHERE user_id = :user_id`. -/
def countU (l : List Session) (u : String) : Nat :=
  (l.filter (fun s => s.userId == u)).length

/-- `DELETE FROM sessions WHERE user_id = :user_id AND expires_at <= NOW()`
(jwt_service.py line 239): the rows that survive the expiry cleanup. -/
def expiredFilter (uid : String) (now : Int) (s : Session) : Bool :=
  !(s.userId == uid && decide (s.expiresAt ≤ now))

def afterExpiredOf (st : Store) (uid : String) (now : Int) : List Session :=
  st.sessions.filter (expiredFilter uid now)

/-- Remove the first occurrence of a given row from a session list
(a DELETE of one selected row; `session_id` is the primary key, so the
selected row occurs once). -/
def eraseFirst : List Session → Session → List Session
  | [], _ => []
  | x :: t, m => if x = m then t else x :: eraseFirst t m

/-- The first row with minimal `created_at` in a list kept in insertion
order: the row `ORDER BY created_at ASC` puts first, with ties broken by
insertion order. -/
def argminCreated : List Session → Option Session
  | [] => none
  | x :: t =>
    match argminCreated t with
    | none => some x
    | some m => if x.createdAt ≤ m.createdAt then some x else some m

/-- `DELETE FROM sessions WHERE session_id IN (SELECT session_id FROM
sessions WHERE user_id = :user_id ORDER BY created_at ASC LIMIT :limit)`
(jwt_service.py lines 260-274): delete the `n` oldest sessions of `uid`,
realised as `n` rounds of deleting the earliest row with minimal
`created_at`. -/
def evict (uid : String) : Nat → List Session → List Session
  | 0, ss => ss
  | n + 1, ss =>
    match argminCreated (ss.filter (fun s => s.userId == uid)) with
    | none => ss
    | some m => evict uid n (eraseFirst ss m)

/-- `JWTService._remove_old_sessions_if_needed` (jwt_service.py lines
217-296).  Returns `(expired_deleted, old_deleted, store)`; the two counts
are the lengths of the `RETURNING session_id` result sets. -/
def remove_old_sessions_if_needed (cfg : Config) (st : Store) (uid : String)
    (now : Int) : Nat × Nat × Store :=
  let afterExpired := afterExpiredOf st uid now
  let expiredDeleted := st.sessions.length - afterExpired.length
  let activeCount := countU afterExpired uid
  if cfg.maxSessions ≤ activeCount then
    let deleteCount := activeCount - cfg.maxSessions + 1
    let afterEvict := evict uid deleteCount afterExpired
    let oldDeleted := afterExpired.length - afterEvict.length
    (expiredDeleted, oldDeleted, { st with sessions := afterEvict })
  else
    (expiredDeleted, 0, { st with sessions := afterExpired })

/-- `JWTService.create_session` (jwt_service.py lines 298-388): cleanup,
then `INSERT INTO sessions (...) VALUES (...) RETURNING session_id`
with `expires_at = now + refresh_expires` (line 340).  Returns the new
`session_id` and the updated store. -/
def create_session (cfg : Config) (st : Store) (uid accessToken
    refreshTokenHash userAgent ipAddr : String) (now : Int) : Nat × Store :=
  let cleaned := remove_old_sessions_if_needed cfg st uid now
  let st1 := cleaned.2.2
  let s : Session :=
    { sessionId := st1.nextId, userId := uid, accessToken := accessToken,
      refreshTokenHash := refreshTokenHash, userAgent := userAgent,
      ipAddress := ipAddr, createdAt := now,
      expiresAt := now + cfg.refreshExpires }
  let st2 : Store :=
    { st1 with sessions := st1.sessions ++ [s], nextId := st1.nextId + 1 }
  (st1.nextId, st2)

/-- Result of `JWTService.generate_tokens` (jwt_service.py lines 126-214). -/
structure TokenPair where
  accessToken : Tok
  refreshToken : Tok
  expiresIn : Int
deriving DecidableEq

/-- `JWTService.generate_tokens`: both payloads are issued at `now` with
`exp = now + ttl` for the respective TTL, signed with the service key. -/
def generate_tokens (cfg : Config) (key : Nat) (userId : String)
    (now : Int) : TokenPair :=
  { accessToken :=
      { payload := { userId := userId, exp := now + cfg.accessExpires,
                     iat := now, ttype := .access }, keyId := key },
    refreshToken :=
      { payload := { userId := userId, exp := now + cfg.refreshExpires,
                     iat := now, ttype := .refresh }, keyId := key },
    expiresIn := cfg.accessExpires }

/-- The JSON envelope returned by the `/jwt/check` endpoint
(jwt_check.py): HTTP status, `code`, `status`, and the optional body
fields `token_valid`, `refresh`, `message`. -/
structure CheckResp where
  httpCode : Nat
  code : Nat
  status : Bool
  tokenValid : Option Bool
  refresh : Option Bool
  message : Option String
deriving DecidableEq

/-- jwt_check.py lines 42-46: missing `access-token` or `user-id` header. -/
def checkMissingHeaders : CheckResp :=
  ⟨400, 400, false, none, none, some "Необходимы заголовки access-token и user-id"⟩

/-- jwt_check.py lines 62-69 and 146-153: the token does not decode under
the service key, or its subject is not the declared user.  Both return
sites produce this same JSON value. -/
def checkForged : CheckResp := ⟨403, 403, true, some false, some false, none⟩

/-- jwt_check.py lines 92-99: expired token found in `revoked_tokens`. -/
def checkRevoked : CheckResp := ⟨401, 401, true, some false, some false, none⟩

/-- jwt_check.py lines 115-122: expired token with a live matching session. -/
def checkRefreshable : CheckResp := ⟨401, 401, true, some false, some true, none⟩

/-- jwt_check.py lines 125-132: expired token with no live matching session. -/
def checkNonRefreshable : CheckResp := ⟨401, 401, true, some false, some false, none⟩

/-- jwt_check.py lines 136-142: unexpired token owned by the declared user. -/
def checkValid : CheckResp := ⟨200, 200, true, some true, none, none⟩

/-- `revoked_tokens` lookup of jwt_check.py lines 82-88:
`SELECT 1 FROM revoked_tokens WHERE token_hash = SHA256(:token) AND
user_id = :user_id`. -/
def revokedHit (sha : String → String) (st : Store) (raw uid : String) : Bool :=
  st.revoked.any (fun r => r.tokenHash == sha raw && r.userId == uid)

/-- `sessions` lookup of jwt_check.py lines 102-111:
`SELECT 1 FROM sessions WHERE user_id = :user_id AND refresh_token_hash =
SHA256(:refresh_token) AND expires_at > NOW()`, where the bound
`:refresh_token` is the presented access token (line 110). -/
def refreshHit (sha : String → String) (st : Store) (raw uid : String)
    (now : Int) : Bool :=
  st.sessions.any (fun s =>
    s.userId == uid && s.refreshTokenHash == sha raw && decide (s.expiresAt > now))

/-- The `/jwt/check` endpoint `check_jwt` (jwt_check.py lines 16-161).
Every database access on every path is a SELECT, so the store is returned
unchanged on each branch. -/
def check_jwt (ser : Tok → String) (sha : String → String) (key : Nat)
    (st : Store) (now : Int) (accessHdr : Presented) (uidHdr : String) :
    CheckResp × Store :=
  if rawOf ser accessHdr = "" ∨ uidHdr = "" then (checkMissingHeaders, st)
  else
    match jwt_decode_noexp key accessHdr with
    | .invalid => (checkForged, st)
    | .ok p =>
      if p.userId ≠ uidHdr then (checkForged, st)
      else if now > p.exp then
        if revokedHit sha st (rawOf ser accessHdr) uidHdr then
          (checkRevoked, st)
        else if refreshHit sha st (rawOf ser accessHdr) uidHdr now then
          (checkRefreshable, st)
        else (checkNonRefreshable, st)
      else (checkValid, st)

/-- `AuthService.get_user_by_credentials` (auth_local_service.py lines
17-76): `SELECT user_id, password_hash FROM users WHERE userlogin = :login`
followed by `fetchone()`. -/
def get_user_by_credentials (users : List UserRow) (login : String) :
    Option UserRow :=
  users.find? (fun u => u.userlogin == login)

/-- `AuthService.verify_password` (auth_local_service.py lines 78-116):
plain equality of the two hashes. -/
def verify_password (inputHash storedHash : String) : Bool :=
  inputHash == storedHash

/-- The JSON envelope returned by `/auth/local/` (local_auth.py). -/
structure AuthResp where
  httpCode : Nat
  code : Nat
  status : Bool
  message : Option String
  accessToken : Option String
  refreshToken : Option String
  sessionId : Option Nat
  userId : Option String
  expiresIn : Option Int
deriving DecidableEq

def authBadRequest (msg : String) : AuthResp :=
  ⟨400, 400, false, some msg, none, none, none, none, none⟩

/-- The `/auth/local/` endpoint `local_auth` (local_auth.py lines 15-142).
The JSON-body presence checks (lines 24-43) are the HTTP layer; the inputs
here are the extracted `login` and `password` strings, empty when absent
(Python falsiness).  The two authentication-failure return sites (lines
74-79 and 86-91) are written out separately below exactly as in the
source; both happen to build the same JSON value. -/
def local_auth (cfg : Config) (ser : Tok → String) (sha : String → String)
    (key : Nat) (users : List UserRow) (st : Store)
    (login password userAgent ipAddr : String) (now : Int) :
    AuthResp × Store :=
  if login = "" then (authBadRequest "Логин обязателен", st)
  else if password = "" then (authBadRequest "Пароль обязателен", st)
  else
    match get_user_by_credentials users login with
    | none =>
      (⟨403, 403, false, some "Неверные учетные данные",
        none, none, none, none, none⟩, st)
    | some user =>
      if verify_password password user.passwordHash then
        let tokens := generate_tokens cfg key user.userId now
        let refreshTokenHash := sha (ser tokens.refreshToken)
        let created := create_session cfg st user.userId
          (ser tokens.accessToken) refreshTokenHash userAgent ipAddr now
        (⟨200, 200, true, none, some (ser tokens.accessToken),
          some (ser tokens.refreshToken), some created.1, some user.userId,
          some tokens.expiresIn⟩, created.2)
      else
        (⟨403, 403, false, some "Неверные учетные данные",
          none, none, none, none, none⟩, st)

/-- The JSON envelope returned by `/api/auth/logout` (logout.py). -/
structure LogoutResp where
  httpCode : Nat
  code : Nat
  status : Bool
  message : String
deriving DecidableEq

def logoutBadRequest : LogoutResp :=
  ⟨400, 400, false, "Требуется access-token и refresh-token"⟩

def logoutServerError : LogoutResp := ⟨500, 500, false, "Ошибка сервера"⟩

def logoutSuccess : LogoutResp := ⟨200, 200, true, "Сессия завершена"⟩

inductive PyErr
  | nameErrorJwtUndefined
deriving DecidableEq

/-- The transaction body of `logout` (logout.py lines 27-48).  After the
tentative `INSERT INTO revoked_tokens (token) VALUES (:token)` for both
headers, line 36 evaluates `jwt.decode(...)`, but logout.py never imports
`jwt` (its imports are flask, the logger, `get_db_session` and `text`
only), so Python raises `NameError` there; the guarding clause
`except jwt.InvalidTokenError` evaluates the same undefined name and the
error propagates, so `session.commit()` on line 48 is never reached and
`get_db_session` rolls the transaction back (database_connector.py lines
110-118).  No committed store state is ever produced by this body. -/
def logout_txn (_st : Store) (_accessHdr _refreshHdr : String) :
    Except PyErr Store :=
  .error .nameErrorJwtUndefined

/-- The `/api/auth/logout` endpoint `logout` (logout.py lines 12-62): the
header check, then the transaction body; any exception is caught by the
outer handler (lines 56-62) and answered with the 500 response, the store
left as rolled back. -/
def logout (st : Store) (accessHdr refreshHdr : String) :
    LogoutResp × Store :=
  if accessHdr = "" ∨ refreshHdr = "" then (logoutBadRequest, st)
  else
    match logout_txn st accessHdr refreshHdr with
    | .ok st1 => (logoutSuccess, st1)
    | .error _ => (logoutServerError, st)

/-- One createSession request as issued by the `/auth/local/` handler:
the arguments of `JWTService.create_session` plus the instant of the call. -/
structure CreateReq where
  uid : String
  accessToken : String
  refreshTokenHash : String
  userAgent : String
  ipAddr : String
  now : Int

/-- A sequential run of `create_session` calls starting from the empty
store. -/
def runCreates (cfg : Config) (reqs : List CreateReq) : Store :=
  reqs.foldl (fun st r =>
    (create_session cfg st r.uid r.accessToken r.refreshTokenHash
      r.userAgent r.ipAddr r.now).2) emptyStore

/-- Example instantiations of the opaque wire serialization and hash used
to run concrete scenarios and witnesses; no control flow in those runs
depends on their values, only on equality of their outputs. -/
def serEx : Tok → String := fun t => t.payload.userId ++ "tok"

def shaEx : String → String := fun s => s ++ "#"

def scUsers : List UserRow := [⟨"u", "log", "pw"⟩]

def scCfg : Config := ⟨2, 600, 1200⟩

/-- Scenario of spec section 8: max_sessions = 2; the same user
authenticates three times sequentially through the `/auth/local/` handler
at instants 0, 1, 2, starting from an empty store. -/
def scenarioRun : Store :=
  let r1 := local_auth scCfg serEx shaEx 9 scUsers emptyStore "log" "pw" "ua" "ip" 0
  let r2 := local_auth scCfg serEx shaEx 9 scUsers r1.2 "log" "pw" "ua" "ip" 1
  let r3 := local_auth scCfg serEx shaEx 9 scUsers r2.2 "log" "pw" "ua" "ip" 2
  r3.2

/-- A store holding two live sessions of user `u` (for example left over
from a run under a larger configured limit). -/
def c2Store : Store :=
  ⟨[⟨0, "u", "a0", "r0", "ua", "ip", 0, 100⟩,
    ⟨1, "u", "a1", "r1", "ua", "ip", 1, 100⟩], [], 2⟩

/-- A token of user `u` signed by key pair 7, expiring at instant 100. -/
def c3tok : Tok := ⟨⟨"u", 100, 0, .access⟩, 7⟩

/-- A store whose revocation ledger records exactly `c3tok` for user `u`. -/
def c3Store : Store := ⟨[], [⟨shaEx (serEx c3tok), "u"⟩], 0⟩

/-- A token of user `v` signed by key pair 7, expiring at instant 100. -/
def c4tok : Tok := ⟨⟨"v", 100, 0, .access⟩, 7⟩

/-- A store holding one session of user `v`, live until instant 500, whose
refresh_token_hash equals the hash of the serialized `c4tok`. -/
def c4Store : Store := ⟨[⟨0, "v", "x", "vtok#", "ua", "ip", 0, 500⟩], [], 1⟩

/-- A token of user `w` signed by key pair 3, expiring at instant 100. -/
def wTok : Tok := ⟨⟨"w", 100, 40, .access⟩, 3⟩

/-- A nonempty store used to witness that token checking mutates nothing. -/
def wStore : Store := ⟨[⟨5, "w", "a", "r", "ua", "ip", 0, 10⟩, ⟨7, "z", "b", "q", "ua", "ip", 0, 90⟩], [⟨"h", "w"⟩], 8⟩

def c8Users : List UserRow := [⟨"u1", "alice", "h1"⟩]

theorem countU_nil (u : String) : countU [] u = 0 := rfl

theorem countU_cons (s : Session) (l : List Session) (u : String) :
    countU (s :: l) u = (if s.userId = u then 1 else 0) + countU l u := by
  by_cases h : s.userId = u <;>
    simp [countU, List.filter_cons, h, Nat.add_comm]

theorem countU_le_length (l : List Session) (u : String) :
    countU l u ≤ l.length := by
  simpa [countU] using List.length_filter_le _ l

theorem countU_append (l l' : List Session) (u : String) :
    countU (l ++ l') u = countU l u + countU l' u := by
  simp [countU, List.filter_append]

theorem eraseFirst_length {l : List Session} {m : Session} (h : m ∈ l) :
    l.length = (eraseFirst l m).length + 1 := by
  induction l with
  | nil => simp at h
  | cons x t ih =>
    by_cases hx : x = m
    · simp [eraseFirst, hx]
    · have hm : m ∈ t := by
        rcases List.mem_cons.mp h with h1 | h1
        · exact absurd h1.symm hx
        · exact h1
      simp [eraseFirst, hx, ih hm]

theorem eraseFirst_countU_ne {m : Session} {v : String} (h : m.userId ≠ v)
    (l : List Session) : countU (eraseFirst l m) v = countU l v := by
  induction l with
  | nil => rfl
  | cons x t ih =>
    by_cases hx : x = m
    · subst hx
      simp [eraseFirst, countU_cons, h]
    · simp [eraseFirst, hx, countU_cons, ih]

theorem eraseFirst_countU_self {l : List Session} {m : Session} (h : m ∈ l) :
    countU l m.userId = countU (eraseFirst l m) m.userId + 1 := by
  induction l with
  | nil => simp at h
  | cons x t ih =>
    by_cases hx : x = m
    · subst hx
      simp [eraseFirst, countU_cons, Nat.add_comm]
    · have hm : m ∈ t := by
        rcases List.mem_cons.mp h with h1 | h1
        · exact absurd h1.symm hx
        · exact h1
      by_cases hxu : x.userId = m.userId
      · simp [eraseFirst, hx, countU_cons, ih hm, hxu]
        omega
      · simp [eraseFirst, hx, countU_cons, ih hm, hxu]

theorem argminCreated_mem {l : List Session} {m : Session}
    (h : argminCreated l = some m) : m ∈ l := by
  induction l with
  | nil => simp [argminCreated] at h
  | cons x t ih =>
    rw [argminCreated] at h
    cases h2 : argminCreated t with
    | none =>
      rw [h2] at h
      have hx : x = m := by simpa using h
      subst hx
      exact List.mem_cons_self x t
    | some m' =>
      rw [h2] at h
      by_cases hle : x.createdAt ≤ m'.createdAt
      · have hx : x = m := by simpa [hle] using h
        subst hx
        exact List.mem_cons_self x t
      · have hx : m' = m := by simpa [hle] using h
        subst hx
        exact List.mem_cons_of_mem _ (ih h2)

theorem argminCreated_cons_some (x : Session) (t : List Session) :
    ∃ m, argminCreated (x :: t) = some m ∧ m ∈ x :: t := by
  cases h2 : argminCreated t with
  | none => exact ⟨x, by rw [argminCreated, h2], List.mem_cons_self x t⟩
  | some m =>
    by_cases hle : x.createdAt ≤ m.createdAt
    · exact ⟨x, by rw [argminCreated, h2]; simp [hle], List.mem_cons_self x t⟩
    · exact ⟨m, by rw [argminCreated, h2]; simp [hle],
        List.mem_cons_of_mem _ (argminCreated_mem h2)⟩

theorem countU_pos_filter_ne_nil {ss : List Session} {uid : String}
    (h : countU ss uid ≠ 0) :
    ss.filter (fun s => s.userId == uid) ≠ [] := by
  intro hnil
  apply h
  simp [countU, hnil]

theorem evict_countU_self (uid : String) :
    ∀ (n : Nat) (ss : List Session),
      countU (evict uid n ss) uid = countU ss uid - min n (countU ss uid)
  | 0, ss => by simp [evict]
  | n + 1, ss => by
    by_cases hc : countU ss uid = 0
    · have hnil : ss.filter (fun s => s.userId == uid) = [] := by
        have := hc
        simpa [countU, List.length_eq_zero] using this
      rw [evict, hnil]
      simp [argminCreated, hc]
    · obtain ⟨x, t, hcons⟩ :=
        List.exists_cons_of_ne_nil (countU_pos_filter_ne_nil hc)
      have hsome := argminCreated_cons_some x t
      rw [← hcons] at hsome
      obtain ⟨m, hm, hmem⟩ := hsome
      have hmss : m ∈ ss := (List.mem_filter.mp hmem).1
      have hmu : m.userId = uid := by
        have := (List.mem_filter.mp hmem).2
        simpa using this
      have herase : countU ss uid = countU (eraseFirst ss m) uid + 1 := by
        rw [← hmu]
        exact eraseFirst_countU_self hmss
      rw [evict, hm, evict_countU_self uid n (eraseFirst ss m)]
      omega

theorem evict_countU_other (uid v : String) (hne : v ≠ uid) :
    ∀ (n : Nat) (ss : List Session),
      countU (evict uid n ss) v = countU ss v
  | 0, ss => by simp [evict]
  | n + 1, ss => by
    cases hm : argminCreated (ss.filter (fun s => s.userId == uid)) with
    | none => rw [evict, hm]
    | some m =>
      have hmem := argminCreated_mem hm
      have hmu : m.userId = uid := by
        have := (List.mem_filter.mp hmem).2
        simpa using this
      have hmune : m.userId ≠ v := by rw [hmu]; exact fun h => hne h.symm
      rw [evict, hm, evict_countU_other uid v hne n (eraseFirst ss m),
        eraseFirst_countU_ne hmune]

theorem evict_length (uid : String) :
    ∀ (n : Nat) (ss : List Session),
      (evict uid n ss).length = ss.length - min n (countU ss uid)
  | 0, ss => by simp [evict]
  | n + 1, ss => by
    by_cases hc : countU ss uid = 0
    · have hnil : ss.filter (fun s => s.userId == uid) = [] := by
        simpa [countU, List.length_eq_zero] using hc
      rw [evict, hnil]
      simp [argminCreated, hc]
    · obtain ⟨x, t, hcons⟩ :=
        List.exists_cons_of_ne_nil (countU_pos_filter_ne_nil hc)
      have hsome := argminCreated_cons_some x t
      rw [← hcons] at hsome
      obtain ⟨m, hm, hmem⟩ := hsome
      have hmss : m ∈ ss := (List.mem_filter.mp hmem).1
      have hmu : m.userId = uid := by
        have := (List.mem_filter.mp hmem).2
        simpa using this
      have herase : countU ss uid = countU (eraseFirst ss m) uid + 1 := by
        rw [← hmu]
        exact eraseFirst_countU_self hmss
      have hlen : ss.length = (eraseFirst ss m).length + 1 :=
        eraseFirst_length hmss
      have hle : countU (eraseFirst ss m) uid ≤ (eraseFirst ss m).length :=
        countU_le_length _ _
      rw [evict, hm, evict_length uid n (eraseFirst ss m)]
      omega

theorem countU_append_single (l : List Session) (s : Session) (u : String) :
    countU (l ++ [s]) u = countU l u + (if s.userId = u then 1 else 0) := by
  rw [countU_append]
  by_cases h : s.userId = u
  · simp [countU, h]
  · simp [countU, h]

theorem countU_filterExp_other {uid : String} {now : Int} {v : String}
    (h : v ≠ uid) (l : List Session) :
    countU (l.filter (expiredFilter uid now)) v = countU l v := by
  induction l with
  | nil => rfl
  | cons x t ih =>
    by_cases hx : expiredFilter uid now x = true
    · simp only [List.filter_cons, hx, if_true, countU_cons, ih]
    · have hxu : x.userId = uid := by
        have hx2 := hx
        simp [expiredFilter] at hx2
        exact hx2.1
      have hxv : ¬ x.userId = v := by rw [hxu]; exact fun h2 => h h2.symm
      simp only [List.filter_cons, hx, if_false, countU_cons, ih, hxv,
        Bool.false_eq_true, Nat.zero_add]

theorem countU_afterExpired_le (st : Store) (uid : String) (now : Int) :
    countU (afterExpiredOf st uid now) uid ≤ countU st.sessions uid := by
  have h1 : List.Sublist (afterExpiredOf st uid now) st.sessions :=
    List.filter_sublist _
  have h2 := List.Sublist.filter (fun s => s.userId == uid) h1
  simpa [countU] using h2.length_le

theorem remove_countU_self (cfg : Config) (st : Store) (uid : String)
    (now : Int) (h : 1 ≤ cfg.maxSessions) :
    countU (remove_old_sessions_if_needed cfg st uid now).2.2.sessions uid + 1
      ≤ cfg.maxSessions := by
  rw [remove_old_sessions_if_needed]
  by_cases hcap : cfg.maxSessions ≤ countU (afterExpiredOf st uid now) uid
  · simp only [hcap, if_true]
    rw [evict_countU_self]
    omega
  · simp only [hcap, if_false]
    omega

theorem remove_countU_other (cfg : Config) (st : Store) (uid : String)
    (now : Int) {v : String} (hne : v ≠ uid) :
    countU (remove_old_sessions_if_needed cfg st uid now).2.2.sessions v
      = countU st.sessions v := by
  rw [remove_old_sessions_if_needed]
  by_cases hcap : cfg.maxSessions ≤ countU (afterExpiredOf st uid now) uid
  · simp only [hcap, if_true]
    rw [evict_countU_other uid v hne, afterExpiredOf,
      countU_filterExp_other hne]
  · simp only [hcap, if_false]
    rw [afterExpiredOf, countU_filterExp_other hne]

theorem create_countU_self (cfg : Config) (st : Store)
    (uid at_ rh ua ip : String) (now : Int) (h : 1 ≤ cfg.maxSessions) :
    countU (create_session cfg st uid at_ rh ua ip now).2.sessions uid
      ≤ cfg.maxSessions := by
  have h1 := remove_countU_self cfg st uid now h
  simp only [create_session, countU_append_single]
  simp
  omega

theorem create_countU_other (cfg : Config) (st : Store)
    (uid at_ rh ua ip : String) (now : Int) {v : String} (hne : v ≠ uid) :
    countU (create_session cfg st uid at_ rh ua ip now).2.sessions v
      = countU st.sessions v := by
  simp only [create_session, countU_append_single]
  rw [remove_countU_other cfg st uid now hne, if_neg (Ne.symm hne)]
  omega

theorem runCreates_aux (cfg : Config) (h : 1 ≤ cfg.maxSessions) :
    ∀ (reqs : List CreateReq) (st : Store),
      (∀ u, countU st.sessions u ≤ cfg.maxSessions) →
      ∀ u, countU ((reqs.foldl (fun st r =>
        (create_session cfg st r.uid r.accessToken r.refreshTokenHash
          r.userAgent r.ipAddr r.now).2) st)).sessions u ≤ cfg.maxSessions := by
  intro reqs
  induction reqs with
  | nil => intro st hst u; simpa using hst u
  | cons r rest ih =>
    intro st hst u
    rw [List.foldl_cons]
    apply ih
    intro v
    by_cases hv : v = r.uid
    · subst hv
      exact create_countU_self cfg st r.uid _ _ _ _ r.now h
    · rw [create_countU_other cfg st r.uid _ _ _ _ r.now hv]
      exact hst v

/-- C1: for every user and every sequence of sequential createSession
calls starting from the empty store, the number of that user's rows in the
sessions table after each call is at most the configured max_sessions
(stated for any positive configured limit; every intermediate state of a
run is the final state of a prefix of the request list). -/
theorem session_limit_invariant (cfg : Config) (h : 1 ≤ cfg.maxSessions)
    (reqs : List CreateReq) (u : String) :
    countU (runCreates cfg reqs).sessions u ≤ cfg.maxSessions := by
  apply runCreates_aux cfg h reqs emptyStore
  intro v
  simp [emptyStore, countU]

/-- C1 witness: three createSession calls for the same user under
max_sessions = 1 leave at most one session. -/
theorem session_limit_invariant_witness :
    1 ≤ (⟨1, 600, 1200⟩ : Config).maxSessions ∧
    countU (runCreates ⟨1, 600, 1200⟩
      [⟨"u", "a1", "r1", "ua", "ip", 0⟩, ⟨"u", "a2", "r2", "ua", "ip", 1⟩,
       ⟨"u", "a3", "r3", "ua", "ip", 2⟩]).sessions "u" ≤ 1 :=
  ⟨by decide,
   session_limit_invariant ⟨1, 600, 1200⟩ (by decide)
     [⟨"u", "a1", "r1", "ua", "ip", 0⟩, ⟨"u", "a2", "r2", "ua", "ip", 1⟩,
      ⟨"u", "a3", "r3", "ua", "ip", 2⟩] "u"⟩

/-- C2 counterexample: with max_sessions = 1 and a store holding two live
sessions of the user, the eviction step of createSession deletes BOTH rows
(old_deleted = 2), not exactly the single oldest one: the cleanup leaves
the user with no sessions at all, refuting "delete exactly the single
oldest session ... and no other". -/
theorem eviction_not_single_counterexample :
    countU (afterExpiredOf c2Store "u" 10) "u" = 2 ∧
    (⟨1, 600, 1200⟩ : Config).maxSessions ≤ 2 ∧
    (remove_old_sessions_if_needed ⟨1, 600, 1200⟩ c2Store "u" 10).2.1 = 2 ∧
    (remove_old_sessions_if_needed ⟨1, 600, 1200⟩ c2Store "u" 10).2.2.sessions
      = [] := by
  decide

/-- C2 amended: createSession deletes the user's expired sessions, counts
the remainder, and if that count is at least max_sessions deletes the
count - max_sessions + 1 oldest sessions (lowest created_at, ties by
insertion order) - exactly the single oldest precisely when the count
equals max_sessions, the only case arising in sequential use - then
inserts the new session.  The concrete scenario holds as stated: with
max_sessions = 2, authenticating the same user three times sequentially
leaves exactly the two sessions of the second and third authentication,
the first-created session (session_id 0) evicted. -/
theorem eviction_count_law_and_scenario (cfg : Config) (st : Store)
    (uid : String) (now : Int) (h1 : 1 ≤ cfg.maxSessions)
    (h2 : cfg.maxSessions ≤ countU (afterExpiredOf st uid now) uid) :
    ((remove_old_sessions_if_needed cfg st uid now).2.1
        = countU (afterExpiredOf st uid now) uid - cfg.maxSessions + 1) ∧
    scenarioRun.sessions.length = 2 ∧
    scenarioRun.sessions.map (fun s => s.sessionId) = [1, 2] := by
  refine ⟨?_, by decide, by decide⟩
  have hcl : countU (afterExpiredOf st uid now) uid
      ≤ (afterExpiredOf st uid now).length := countU_le_length _ _
  rw [remove_old_sessions_if_needed]
  simp only [h2, if_true]
  rw [evict_length]
  omega

/-- C2 witness: instance of the amended claim at max_sessions = 1 and a
store with two live sessions. -/
theorem eviction_count_law_witness :
    (1 ≤ (⟨1, 600, 1200⟩ : Config).maxSessions ∧
      (⟨1, 600, 1200⟩ : Config).maxSessions
        ≤ countU (afterExpiredOf c2Store "u" 10) "u") ∧
    ((remove_old_sessions_if_needed ⟨1, 600, 1200⟩ c2Store "u" 10).2.1
        = countU (afterExpiredOf c2Store "u" 10) "u"
          - (⟨1, 600, 1200⟩ : Config).maxSessions + 1) ∧
    scenarioRun.sessions.length = 2 ∧
    scenarioRun.sessions.map (fun s => s.sessionId) = [1, 2] :=
  ⟨⟨by decide, by decide⟩,
   eviction_count_law_and_scenario ⟨1, 600, 1200⟩ c2Store "u" 10
     (by decide) (by decide)⟩

/-- C3 counterexample: a token recorded in the revocation ledger for its
user but not yet expired is answered `valid` (HTTP 200) by CheckToken, not
`revoked`: the ledger is only consulted in the expired branch. -/
theorem revoked_unexpired_reported_valid :
    revokedHit shaEx c3Store (rawOf serEx (.tok c3tok)) "u" = true ∧
    (check_jwt serEx shaEx 7 c3Store 50 (.tok c3tok) "u").1 = checkValid ∧
    checkValid.httpCode = 200 ∧ checkValid ≠ checkRevoked := by
  decide

/-- C3 amended: CheckToken never returns refresh = true for a token
recorded in the revocation ledger for the declared user; and when such a
token is additionally signature-valid, owned by the declared user and
expired, the result is the revoked response (401, refresh = false).  An
unexpired token is answered `valid` without consulting the ledger, and the
post-Logout particular is dropped (the logout handler fails before
committing any ledger row). -/
theorem revoked_never_refreshable (ser : Tok → String) (sha : String → String)
    (key : Nat) (st : Store) (now : Int) (p : Presented) (uid : String)
    (hled : revokedHit sha st (rawOf ser p) uid = true) :
    (check_jwt ser sha key st now p uid).1.refresh ≠ some true ∧
    ∀ t : Tok, p = Presented.tok t → t.keyId = key →
      t.payload.userId = uid → now > t.payload.exp →
      rawOf ser p ≠ "" → uid ≠ "" →
      (check_jwt ser sha key st now p uid).1 = checkRevoked := by
  constructor
  · by_cases hh : rawOf ser p = "" ∨ uid = ""
    · simp [check_jwt, hh, checkMissingHeaders]
    · cases hdec : jwt_decode_noexp key p with
      | invalid => simp [check_jwt, hh, hdec, checkForged]
      | ok pl =>
        by_cases hsub : pl.userId = uid
        · by_cases hexp : now > pl.exp
          · simp [check_jwt, hh, hdec, hsub, hexp, hled, checkRevoked]
          · simp [check_jwt, hh, hdec, hsub, hexp, checkValid]
        · simp [check_jwt, hh, hdec, hsub, checkForged]
  · intro t hp hkey hsub hexp hraw huid
    subst hp
    have hh : ¬ (rawOf ser (Presented.tok t) = "" ∨ uid = "") := by
      simp [hraw, huid]
    simp [check_jwt, hh, jwt_decode_noexp, hkey, hsub, hexp, hled]

/-- C3 witness: the ledger-recorded token of `c3Store`, presented after
its expiry, is not refreshable and is answered with the revoked response. -/
theorem revoked_never_refreshable_witness :
    revokedHit shaEx c3Store (rawOf serEx (.tok c3tok)) "u" = true ∧
    (check_jwt serEx shaEx 7 c3Store 200 (.tok c3tok) "u").1.refresh
      ≠ some true ∧
    (check_jwt serEx shaEx 7 c3Store 200 (.tok c3tok) "u").1 = checkRevoked :=
  ⟨by decide,
   (revoked_never_refreshable serEx shaEx 7 c3Store 200 (.tok c3tok) "u"
     (by decide)).1,
   (revoked_never_refreshable serEx shaEx 7 c3Store 200 (.tok c3tok) "u"
     (by decide)).2 c3tok rfl (by decide) (by decide) (by decide)
     (by decide) (by decide)⟩

/-- C4: for a signature-valid access token of the declared user that is
expired and not in the revocation ledger, CheckToken answers
`expired-refreshable` (401, refresh = true) exactly when a non-expired
session of this user exists whose refresh_token_hash equals the hash of
the presented credential, and `expired-non-refreshable` (401,
refresh = false) otherwise. -/
theorem expired_refresh_classification (ser : Tok → String)
    (sha : String → String) (key : Nat) (st : Store) (now : Int) (t : Tok)
    (uid : String) (hkey : t.keyId = key) (hsub : t.payload.userId = uid)
    (hexp : now > t.payload.exp)
    (hraw : rawOf ser (Presented.tok t) ≠ "") (huid : uid ≠ "")
    (hled : revokedHit sha st (rawOf ser (Presented.tok t)) uid = false) :
    (refreshHit sha st (rawOf ser (Presented.tok t)) uid now = true →
      (check_jwt ser sha key st now (.tok t) uid).1 = checkRefreshable) ∧
    (refreshHit sha st (rawOf ser (Presented.tok t)) uid now = false →
      (check_jwt ser sha key st now (.tok t) uid).1 = checkNonRefreshable) := by
  have hh : ¬ (rawOf ser (Presented.tok t) = "" ∨ uid = "") := by
    simp [hraw, huid]
  constructor
  · intro hsess
    simp [check_jwt, hh, jwt_decode_noexp, hkey, hsub, hexp, hled, hsess]
  · intro hsess
    simp [check_jwt, hh, jwt_decode_noexp, hkey, hsub, hexp, hled, hsess]

/-- C4 witness: an expired unrevoked token of user `v` with a live session
whose refresh_token_hash matches the presented credential. -/
theorem expired_refresh_classification_witness :
    (c4tok.keyId = 7 ∧ c4tok.payload.userId = "v" ∧
      (200 : Int) > c4tok.payload.exp ∧
      rawOf serEx (.tok c4tok) ≠ "" ∧ ("v" : String) ≠ "" ∧
      revokedHit shaEx c4Store (rawOf serEx (.tok c4tok)) "v" = false) ∧
    ((refreshHit shaEx c4Store (rawOf serEx (.tok c4tok)) "v" 200 = true →
      (check_jwt serEx shaEx 7 c4Store 200 (.tok c4tok) "v").1
        = checkRefreshable) ∧
    (refreshHit shaEx c4Store (rawOf serEx (.tok c4tok)) "v" 200 = false →
      (check_jwt serEx shaEx 7 c4Store 200 (.tok c4tok) "v").1
        = checkNonRefreshable)) :=
  ⟨by decide,
   expired_refresh_classification serEx shaEx 7 c4Store 200 c4tok "v"
     (by decide) (by decide) (by decide) (by decide) (by decide) (by decide)⟩

/-- C5: decoding a token issued by generate_tokens under the issuing key
yields exactly the subject it was issued for, the same token type, and
expires_at = issued_at + ttl, for both the access and the refresh token of
the pair. -/
theorem token_codec_round_trip (cfg : Config) (key : Nat) (uid : String)
    (now : Int) :
    (jwt_decode_noexp key (.tok (generate_tokens cfg key uid now).accessToken)
      = .ok { userId := uid, exp := now + cfg.accessExpires, iat := now,
              ttype := .access }) ∧
    (jwt_decode_noexp key (.tok (generate_tokens cfg key uid now).refreshToken)
      = .ok { userId := uid, exp := now + cfg.refreshExpires, iat := now,
              ttype := .refresh }) ∧
    ((generate_tokens cfg key uid now).accessToken.payload.exp
      = (generate_tokens cfg key uid now).accessToken.payload.iat
        + cfg.accessExpires) ∧
    ((generate_tokens cfg key uid now).refreshToken.payload.exp
      = (generate_tokens cfg key uid now).refreshToken.payload.iat
        + cfg.refreshExpires) := by
  refine ⟨?_, ?_, rfl, rfl⟩ <;> simp [jwt_decode_noexp, generate_tokens]

/-- C6: evaluation of the code at the failing input of the code_bug
finding: Logout on any non-empty token pair answers the 500 server-error
response and leaves the store untouched, on the first and on the second
call alike; it never returns the success response (the handler evaluates
the unimported name `jwt` and the resulting NameError aborts the
transaction). -/
theorem logout_returns_error_not_success :
    logout emptyStore "a" "b" = (logoutServerError, emptyStore) ∧
    logout (logout emptyStore "a" "b").2 "a" "b"
      = (logoutServerError, emptyStore) ∧
    logoutServerError.httpCode = 500 ∧ logoutServerError ≠ logoutSuccess := by
  decide

/-- C7: evaluation of the code at the failing input of the code_bug
finding: revoking the same token pair a second time via Logout is not a
no-op success - the second call also answers the 500 error response (and
no ledger row is ever committed, the transaction having rolled back both
times). -/
theorem second_revocation_errors :
    (logout emptyStore "x" "y").1 = logoutServerError ∧
    (logout (logout emptyStore "x" "y").2 "x" "y").1 = logoutServerError ∧
    (logout (logout emptyStore "x" "y").2 "x" "y").2.revoked
      = emptyStore.revoked := by
  decide

/-- C8: a login with no user record and a login whose stored password hash
differs from the asserted hash receive the identical failure response
(HTTP 403, same JSON body), so the caller cannot distinguish "not found"
from "hash mismatch". -/
theorem auth_failure_indistinguishable (cfg : Config) (ser : Tok → String)
    (sha : String → String) (key : Nat) (users1 users2 : List UserRow)
    (st1 st2 : Store) (l1 p1 ua1 ip1 l2 p2 ua2 ip2 : String)
    (now1 now2 : Int)
    (hl1 : l1 ≠ "") (hp1 : p1 ≠ "") (hl2 : l2 ≠ "") (hp2 : p2 ≠ "")
    (hnf : get_user_by_credentials users1 l1 = none)
    (u : UserRow) (hf : get_user_by_credentials users2 l2 = some u)
    (hmis : verify_password p2 u.passwordHash = false) :
    (local_auth cfg ser sha key users1 st1 l1 p1 ua1 ip1 now1).1
      = (local_auth cfg ser sha key users2 st2 l2 p2 ua2 ip2 now2).1 ∧
    (local_auth cfg ser sha key users1 st1 l1 p1 ua1 ip1 now1).1.httpCode
      = 403 := by
  constructor
  · simp [local_auth, hl1, hp1, hnf, hl2, hp2, hf, hmis]
  · simp [local_auth, hl1, hp1, hnf]

/-- C8 witness: unknown login `bob` versus known login `alice` with a
wrong password hash. -/
theorem auth_failure_indistinguishable_witness :
    (("bob" : String) ≠ "" ∧ ("x" : String) ≠ "" ∧
      ("alice" : String) ≠ "" ∧ ("h2" : String) ≠ "" ∧
      get_user_by_credentials [] "bob" = none ∧
      get_user_by_credentials c8Users "alice" = some ⟨"u1", "alice", "h1"⟩ ∧
      verify_password "h2" (⟨"u1", "alice", "h1"⟩ : UserRow).passwordHash
        = false) ∧
    ((local_auth scCfg serEx shaEx 9 [] emptyStore "bob" "x" "ua" "ip" 0).1
      = (local_auth scCfg serEx shaEx 9 c8Users emptyStore "alice" "h2"
          "ua" "ip" 0).1 ∧
    (local_auth scCfg serEx shaEx 9 [] emptyStore "bob" "x" "ua" "ip" 0).1.httpCode
      = 403) :=
  ⟨by decide,
   auth_failure_indistinguishable scCfg serEx shaEx 9 [] c8Users
     emptyStore emptyStore "bob" "x" "ua" "ip" "alice" "h2" "ua" "ip" 0 0
     (by decide) (by decide) (by decide) (by decide) (by decide)
     ⟨"u1", "alice", "h1"⟩ (by decide) (by decide)⟩

/-- C9: a signature-valid, unexpired access token owned by the declared
user is answered `valid` (200) with the store returned unchanged, and a
repeated call on the unchanged token again answers `valid` with the store
still unchanged (every database access of the check endpoint is a SELECT). -/
theorem valid_check_no_mutation (ser : Tok → String) (sha : String → String)
    (key : Nat) (st : Store) (now : Int) (t : Tok) (uid : String)
    (hkey : t.keyId = key) (hsub : t.payload.userId = uid)
    (hexp : ¬ now > t.payload.exp)
    (hraw : rawOf ser (Presented.tok t) ≠ "") (huid : uid ≠ "") :
    check_jwt ser sha key st now (.tok t) uid = (checkValid, st) ∧
    check_jwt ser sha key
      (check_jwt ser sha key st now (.tok t) uid).2 now (.tok t) uid
      = (checkValid, st) := by
  have hh : ¬ (rawOf ser (Presented.tok t) = "" ∨ uid = "") := by
    simp [hraw, huid]
  have h1 : check_jwt ser sha key st now (.tok t) uid = (checkValid, st) := by
    simp [check_jwt, hh, jwt_decode_noexp, hkey, hsub, hexp]
  exact ⟨h1, by rw [h1]; exact h1⟩

/-- C9 witness: a live token of user `w` checked twice against a nonempty
store. -/
theorem valid_check_no_mutation_witness :
    (wTok.keyId = 3 ∧ wTok.payload.userId = "w" ∧
      ¬ (50 : Int) > wTok.payload.exp ∧
      rawOf serEx (.tok wTok) ≠ "" ∧ ("w" : String) ≠ "") ∧
    (check_jwt serEx shaEx 3 wStore 50 (.tok wTok) "w"
      = (checkValid, wStore) ∧
    check_jwt serEx shaEx 3
      (check_jwt serEx shaEx 3 wStore 50 (.tok wTok) "w").2 50 (.tok wTok) "w"
      = (checkValid, wStore)) :=
  ⟨by decide,
   valid_check_no_mutation serEx shaEx 3 wStore 50 wTok "w"
     (by decide) (by decide) (by decide) (by decide) (by decide)⟩

/-- C10: CheckToken treats a token as expired only when the current time
strictly exceeds its exp claim; a signature-valid token of the declared
user whose exp equals the current timestamp exactly is answered `valid`
(200). -/
theorem expiry_boundary_exact_is_valid (ser : Tok → String)
    (sha : String → String) (key : Nat) (st : Store) (now : Int) (t : Tok)
    (uid : String) (hkey : t.keyId = key) (hsub : t.payload.userId = uid)
    (hraw : rawOf ser (Presented.tok t) ≠ "") (huid : uid ≠ "")
    (hexp : t.payload.exp = now) :
    (check_jwt ser sha key st now (.tok t) uid).1 = checkValid := by
  have hh : ¬ (rawOf ser (Presented.tok t) = "" ∨ uid = "") := by
    simp [hraw, huid]
  have hnotgt : ¬ now > t.payload.exp := by omega
  simp [check_jwt, hh, jwt_decode_noexp, hkey, hsub, hnotgt]

/-- C10 witness: the token of user `w` checked at exactly its expiry
instant 100. -/
theorem expiry_boundary_exact_is_valid_witness :
    (wTok.keyId = 3 ∧ wTok.payload.userId = "w" ∧
      rawOf serEx (.tok wTok) ≠ "" ∧ ("w" : String) ≠ "" ∧
      wTok.payload.exp = (100 : Int)) ∧
    (check_jwt serEx shaEx 3 wStore 100 (.tok wTok) "w").1 = checkValid :=
  ⟨by decide,
   expiry_boundary_exact_is_valid serEx shaEx 3 wStore 100 wTok "w"
     (by decide) (by decide) (by decide) (by decide) (by decide)⟩
